import Mathlib

/-!
Verification of `t5/models/mtf_model.py` (the `MtfModel` facade).

The file is a configuration wrapper: the constructor normalizes its
arguments, resolves a TPU cluster and builds one estimator; `train`,
`eval` and `predict` delegate to external routines with the stored
configuration.  We embed the wrapper shallowly: Python dicts become
association lists, external collaborators become either parameters of
the embedding (bundled in `Ext`) or definitions modelled from the spec,
and every external invocation is recorded in a trace of `ExtCall`s so
that non-invocation claims are statable.
-/

namespace MtfModel

/-- A vocabulary object: the facade only reads its `vocab_size`. -/
structure Vocab where
  vocab_size : Nat
deriving DecidableEq

/-- The `vocabulary` constructor argument: omitted (`None`), a single
vocabulary, or an `(inputs_vocabulary, targets_vocabulary)` tuple. -/
inductive VocabArg
  | omitted
  | single (v : Vocab)
  | pair (inp out : Vocab)
deriving DecidableEq

/-- The vocabulary stored after the `vocabulary or SentencePieceVocabulary()`
defaulting on line 112: a single vocabulary or a pair. -/
inductive VocabResolved
  | single (v : Vocab)
  | pair (inp out : Vocab)
deriving DecidableEq

/-- The `sequence_length` constructor argument: omitted (`None`), a plain
integer, or a dict from feature key to integer (modelled as an
association list). -/
inductive SeqLenArg
  | omitted
  | int (n : Int)
  | map (m : List (String × Int))
deriving DecidableEq

/-- The `batch_size` constructor argument: a plain integer or a
`(method, value)` pair. -/
inductive BatchSizeArg
  | int (n : Int)
  | pair (method : String) (value : Int)
deriving DecidableEq

/-- The `checkpoint_step` argument of `eval`/`predict`: `None`, a single
step, or a list of steps. -/
inductive CheckpointSel
  | omitted
  | step (n : Int)
  | steps (l : List Int)
deriving DecidableEq

/-- External invocations performed by the wrapper, recorded as a trace. -/
inductive ExtCall
  | tpuMeshShape
  | sentencePieceVocabulary
  | computeBatchSize
  | tpuClusterResolver
  | getEstimator
  | meshTrainDatasetFn
  | trainModel
  | meshEvalDatasetFn
  | evalModel
  | inferModel
deriving DecidableEq

/-- The arguments handed to `tf.distribute.cluster_resolver.TPUClusterResolver`
on lines 139-140. -/
structure Cluster where
  tpu : String
  zone : Option String
  project : Option String
deriving DecidableEq

/-- The estimator handle: the wrapper treats it as opaque, so we model it
by the full argument record passed to `utils.get_estimator`
(lines 142-163). -/
structure Estimator where
  model_type : String
  input_vocab_size : Nat
  output_vocab_size : Nat
  layout_rules : String
  mesh_shape : String
  model_dir : String
  batch_size : Int
  sequence_length : List (String × Int)
  autostack : Bool
  learning_rate_schedule : String
  keep_checkpoint_max : Option Int
  save_checkpoints_steps : Int
  optimizer : String
  predict_fn : Option String
  variable_filter : Option String
  ensemble_inputs : Option Int
  use_tpu : Option String
  tpu_job_name : Option String
  iterations_per_loop : Int
  cluster : Cluster
  init_checkpoint : Option String
deriving DecidableEq

/-- The facade's instance fields, as assigned in `__init__`. -/
structure Facade where
  batch_size : Int
  sequence_length : List (String × Int)
  vocabulary : VocabResolved
  model_dir : String
  init_checkpoint : Option String
  model_type : String
  ensemble_inputs : Option Int
  estimator : Estimator
deriving DecidableEq

/-- External collaborators used during construction, supplied as
parameters of the embedding: `utils.tpu_mesh_shape`,
`utils.compute_batch_size`, the default `SentencePieceVocabulary()`,
`mtf.convert_to_layout_rules` and `mtf.convert_to_shape`. -/
structure Ext where
  tpu_mesh_shape : String → Int → String
  compute_batch_size : List (String × Int) → String → String → String × Int → Int
  defaultVocab : Vocab
  convert_to_layout_rules : String → String
  convert_to_shape : String → String

/-- Python truthiness of the `tpu` argument (a string or `None`):
falsy exactly when `None` or the empty string. -/
def tpuTruthy : Option String → Bool
  | none => false
  | some s => s ≠ ""

/-- Line 114: `sequence_length = sequence_length or {"inputs": 512,
"targets": 512}`.  Python truthiness: `None`, the integer `0` and the
empty dict are falsy and are replaced by the default. -/
def seqLenOrDefault : SeqLenArg → SeqLenArg
  | .omitted => .map [("inputs", 512), ("targets", 512)]
  | .int n => if n = 0 then .map [("inputs", 512), ("targets", 512)] else .int n
  | .map m => if m = [] then .map [("inputs", 512), ("targets", 512)] else .map m

/-- Lines 116-118: if the (defaulted) sequence length is an integer,
expand it into a dict assigning it to both keys. -/
def expandSeqLen : SeqLenArg → List (String × Int)
  | .int n => [("inputs", n), ("targets", n)]
  | .map m => m
  | .omitted => []

/-- Modelled from the spec: `utils.inputs_vocabulary` returns the first
component of a vocabulary pair and a single vocabulary unchanged (the
vocabulary exposes a size for the input role). -/
def inputs_vocabulary : VocabResolved → Vocab
  | .single v => v
  | .pair i _ => i

/-- Modelled from the spec: `utils.targets_vocabulary` returns the second
component of a vocabulary pair and a single vocabulary unchanged (the
vocabulary exposes a size for the target role). -/
def targets_vocabulary : VocabResolved → Vocab
  | .single v => v
  | .pair _ o => o

/-- Line 112: `vocabulary = vocabulary or SentencePieceVocabulary()`.
A vocabulary object or a pair is always truthy; only `None` defaults.
The trace records whether the default vocabulary was instantiated. -/
def resolveVocab (ext : Ext) : VocabArg → VocabResolved × List ExtCall
  | .omitted => (.single ext.defaultVocab, [.sentencePieceVocabulary])
  | .single v => (.single v, [])
  | .pair a b => (.pair a b, [])

/-- Lines 120-124: `self._batch_size` is the integer itself when
`batch_size` is an `int`, and otherwise the result of
`utils.compute_batch_size(sequence_length, mesh_shape, layout_rules,
batch_size)`. -/
def resolveBatch (ext : Ext) (seq : List (String × Int)) (mesh : String)
    (layout : String) : BatchSizeArg → Int × List ExtCall
  | .int n => (n, [])
  | .pair m v => (ext.compute_batch_size seq mesh layout (m, v), [.computeBatchSize])

/-- Line 128 default: `learning_rate_schedules.learning_rate_schedule_noam`,
modelled as a token. -/
def noamSchedule : String := "learning_rate_schedule_noam"

/-- Line 130 default: `optimize.AdafactorOptimizer`, modelled as a token. -/
def adafactor : String := "AdafactorOptimizer"

/-- The `MtfModel.__init__` constructor (lines 45-163): normalizes the
sequence length, defaults the vocabulary, resolves the batch size,
resolves the TPU cluster and builds the estimator.  Returns the
constructed facade together with the trace of external invocations. -/
def init (ext : Ext) (model_dir : String) (tpu : Option String)
    (tpu_job_name : Option String) (tpu_zone : Option String)
    (gcp_project : Option String) (tpu_topology : String)
    (model_parallelism : Int) (batch_size : BatchSizeArg)
    (sequence_length : SeqLenArg) (vocabulary : VocabArg)
    (model_type : String) (layout_rules : String) (autostack : Bool)
    (learning_rate_schedule : Option String)
    (keep_checkpoint_max : Option Int) (save_checkpoints_steps : Int)
    (optimizer : Option String) (predict_fn : Option String)
    (variable_filter : Option String) (ensemble_inputs : Option Int)
    (iterations_per_loop : Int) (init_checkpoint : Option String) :
    Facade × List ExtCall :=
  let mesh_shape := ext.tpu_mesh_shape tpu_topology model_parallelism
  let vres := resolveVocab ext vocabulary
  let seq := expandSeqLen (seqLenOrDefault sequence_length)
  let bres := resolveBatch ext seq mesh_shape layout_rules batch_size
  let lr := learning_rate_schedule.getD noamSchedule
  let opt := optimizer.getD adafactor
  let cluster : Cluster :=
    ⟨(match tpu with
      | none => ""
      | some s => if tpuTruthy (some s) then s else ""), tpu_zone, gcp_project⟩
  let est : Estimator :=
    ⟨model_type, (inputs_vocabulary vres.1).vocab_size,
     (targets_vocabulary vres.1).vocab_size,
     ext.convert_to_layout_rules layout_rules, ext.convert_to_shape mesh_shape,
     model_dir, bres.1, seq, autostack, lr, keep_checkpoint_max,
     save_checkpoints_steps, opt, predict_fn, variable_filter,
     ensemble_inputs, tpu, tpu_job_name, iterations_per_loop, cluster,
     init_checkpoint⟩
  (⟨bres.1, seq, vres.1, model_dir, init_checkpoint, model_type,
    ensemble_inputs, est⟩,
   [.tpuMeshShape] ++ vres.2 ++ bres.2 ++
     [.tpuClusterResolver, .getEstimator])

/-- A dataset produced for a registered mixture or task name. -/
structure Dataset where
  name : String
deriving DecidableEq

/-- Modelled from the spec: `mesh_train_dataset_fn` (in
`t5/models/mesh_transformer.py`, not under the sources we have) looks
the name up in the global task/mixture registry and fails with an error
identifying the unregistered name; on success it produces a dataset for
that name.  The registry is modelled as the list of registered names. -/
def mesh_train_dataset_fn (registry : List String) (name : String) :
    Except String Dataset :=
  if name ∈ registry then .ok ⟨name⟩
  else .error ("No Task or Mixture found with name: " ++ name)

/-- Modelled from the spec: `mesh_eval_dataset_fn` behaves like the
training dataset function with respect to registry lookup. -/
def mesh_eval_dataset_fn (registry : List String) (name : String) :
    Except String Dataset :=
  if name ∈ registry then .ok ⟨name⟩
  else .error ("No Task or Mixture found with name: " ++ name)

/-- The argument record of a successful delegation to
`utils.train_model` (lines 176-178). -/
structure TrainEffect where
  estimator : Estimator
  vocabulary : VocabResolved
  sequence_length : List (String × Int)
  batch_size : Int
  dataset : Dataset
  steps : Int
  ensemble_inputs : Option Int
deriving DecidableEq

/-- `MtfModel.train` (lines 165-178): builds a dataset function bound to
the name and delegates to `utils.train_model` with the stored fields.
Modelled from the spec for the external part: `train_model` invokes the
dataset function, and an unregistered name makes that invocation raise
before any dataset exists; the error propagates.  Returns the delegated
effect (or the propagated error), the external-call trace, and the
facade after the call. -/
def train (registry : List String) (m : Facade) (mixture_or_task_name : String)
    (steps : Int) : (Except String TrainEffect × List ExtCall) × Facade :=
  match mesh_train_dataset_fn registry mixture_or_task_name with
  | .error e => ((.error e, [.trainModel, .meshTrainDatasetFn]), m)
  | .ok d =>
    ((.ok ⟨m.estimator, m.vocabulary, m.sequence_length, m.batch_size, d,
           steps, m.ensemble_inputs⟩,
      [.trainModel, .meshTrainDatasetFn]), m)

/-- The argument record of a successful delegation to `utils.eval_model`
(lines 198-200). -/
structure EvalEffect where
  estimator : Estimator
  vocabulary : VocabResolved
  sequence_length : List (String × Int)
  batch_size : Int
  split : String
  model_dir : String
  dataset : Dataset
  summary_dir : Option String
  checkpoint_step : CheckpointSel
deriving DecidableEq

/-- `MtfModel.eval` (lines 180-200): builds an evaluation dataset
function bound to the name and delegates to `utils.eval_model` with the
stored fields.  Modelled from the spec for the external part, as for
`train`. -/
def eval (registry : List String) (m : Facade) (mixture_or_task_name : String)
    (checkpoint_step : CheckpointSel) (summary_dir : Option String)
    (split : String) : (Except String EvalEffect × List ExtCall) × Facade :=
  match mesh_eval_dataset_fn registry mixture_or_task_name with
  | .error e => ((.error e, [.evalModel, .meshEvalDatasetFn]), m)
  | .ok d =>
    ((.ok ⟨m.estimator, m.vocabulary, m.sequence_length, m.batch_size, split,
           m.model_dir, d, summary_dir, checkpoint_step⟩,
      [.evalModel, .meshEvalDatasetFn]), m)

/-- The gin-configurable decoding parameters bound inside `predict`:
`Bitransformer.decode.beam_size` and `Bitransformer.decode.temperature`.
Unbound parameters are `none`.  Temperature is a Python float carrying
no arithmetic here; it is modelled as a rational. -/
structure GinDecode where
  beam_size : Option Int
  temperature : Option Rat
deriving DecidableEq

/-- Line 225: `gin.bind_parameter("Bitransformer.decode.beam_size", b)`. -/
def bindBeamSize (g : GinDecode) (b : Int) : GinDecode :=
  ⟨some b, g.temperature⟩

/-- Line 226: `gin.bind_parameter("Bitransformer.decode.temperature", t)`. -/
def bindTemperature (g : GinDecode) (t : Rat) : GinDecode :=
  ⟨g.beam_size, some t⟩

/-- The argument record of the delegation to `utils.infer_model`
(lines 227-230). -/
structure InferArgs where
  estimator : Estimator
  vocabulary : VocabResolved
  sequence_length : List (String × Int)
  batch_size : Int
  model_type : String
  model_dir : String
  checkpoint_step : CheckpointSel
  input_file : String
  output_file : String
deriving DecidableEq

/-- The observable outcome of a `predict` call: the delegated inference
call's result, the gin state after the `with` block, the delegated
arguments, the gin state in effect during the delegated call, the
external-call trace, and the facade after the call. -/
structure PredictOutcome where
  result : Except String Unit
  gin : GinDecode
  delegated : InferArgs
  delegatedGin : GinDecode
  trace : List ExtCall
  facade : Facade

/-- Modelled from the spec: the scoped gin configuration context of
lines 224-230 (`with gin.unlock_config(), gin.config_scope("decode")`)
saves the prior decode-parameter state on entry and restores it on
every exit path of the `with` block, including an exceptional one. -/
def withDecodeScope (g : GinDecode)
    (body : GinDecode → Except String Unit × GinDecode) :
    Except String Unit × GinDecode :=
  let saved := g
  let r := body g
  (r.1, saved)

/-- `MtfModel.predict` (lines 202-230): inside the scoped configuration
context, binds the given beam size and temperature to the decoding
parameters (with no local validation) and delegates to
`utils.infer_model`; the inference routine may raise, which the wrapper
propagates.  `infer` is the external inference routine, a parameter of
the embedding; it receives the gin state in effect during the call. -/
def predict (infer : InferArgs → GinDecode → Except String Unit) (m : Facade)
    (g : GinDecode) (checkpoint_step : CheckpointSel)
    (input_file output_file : String) (beam_size : Int) (temperature : Rat) :
    PredictOutcome :=
  let args : InferArgs :=
    ⟨m.estimator, m.vocabulary, m.sequence_length, m.batch_size, m.model_type,
     m.model_dir, checkpoint_step, input_file, output_file⟩
  let sc := withDecodeScope g (fun g0 =>
    let g1 := bindBeamSize g0 beam_size
    let g2 := bindTemperature g1 temperature
    (infer args g2, g2))
  let bound := bindTemperature (bindBeamSize g beam_size) temperature
  ⟨sc.1, sc.2, args, bound, [.inferModel], m⟩

/-! Concrete instances used to evaluate the embedding on closed inputs. -/

/-- A concrete external-collaborator bundle: a mesh-shape function that
records its arguments, a sizing function returning the target value, a
default vocabulary of size 32100, and identity conversions. -/
def extW : Ext :=
  ⟨fun t p => t ++ "*" ++ toString p,
   fun _ _ _ p => p.2,
   ⟨32100⟩,
   fun s => s,
   fun s => s⟩

/-- A concrete facade, constructed with `extW` and simple arguments. -/
def facadeW : Facade :=
  (init extW "/tmp/model" none none none none "2x2" 8 (.int 16) (.int 128)
    .omitted "bitransformer" "rules" true none none 5000 none none none none
    100 none).1

/-- C1 counterexample: at `sequence_length = 0` the stored mapping is the
default `{inputs: 512, targets: 512}`, not `{inputs: 0, targets: 0}`:
line 114 applies Python `or`, and the integer 0 is falsy. -/
theorem C1_counterexample :
    (init extW "/tmp/model" none none none none "2x2" 8 (.int 16) (.int 0)
        .omitted "bitransformer" "rules" true none none 5000 none none none
        none 100 none).1.sequence_length
      = [("inputs", 512), ("targets", 512)] ∧
    ¬ (init extW "/tmp/model" none none none none "2x2" 8 (.int 16) (.int 0)
        .omitted "bitransformer" "rules" true none none 5000 none none none
        none 100 none).1.sequence_length
      = [("inputs", 0), ("targets", 0)] := by
  exact ⟨rfl, by decide⟩

/-- C1 (amended): for every nonzero integer `n` passed as the
`sequence_length` constructor argument, construction stores the mapping
`{inputs: n, targets: n}` (the integer 0 is Python-falsy on line 114 and
is replaced by the default before the expansion of lines 116-118). -/
theorem C1_seq_len_int (ext : Ext) (model_dir : String) (tpu : Option String)
    (tjn tz gp : Option String) (topo : String) (par : Int)
    (bs : BatchSizeArg) (n : Int) (voc : VocabArg) (mt layout : String)
    (as0 : Bool) (lrs : Option String) (kcm : Option Int) (scs : Int)
    (opt pf vf : Option String) (ens : Option Int) (ipl : Int)
    (ic : Option String) (h : n ≠ 0) :
    (init ext model_dir tpu tjn tz gp topo par bs (.int n) voc mt layout
        as0 lrs kcm scs opt pf vf ens ipl ic).1.sequence_length
      = [("inputs", n), ("targets", n)] := by
  simp [init, seqLenOrDefault, expandSeqLen, h]

/-- C1 witness: the amended claim evaluated at `n = 7`. -/
theorem C1_seq_len_int_witness :
    (7 : Int) ≠ 0 ∧
    (init extW "/tmp/model" none none none none "2x2" 8 (.int 16) (.int 7)
        .omitted "bitransformer" "rules" true none none 5000 none none none
        none 100 none).1.sequence_length = [("inputs", 7), ("targets", 7)] :=
  ⟨by decide,
   C1_seq_len_int extW "/tmp/model" none none none none "2x2" 8 (.int 16) 7
     .omitted "bitransformer" "rules" true none none 5000 none none none none
     100 none (by decide)⟩

/-- C2 counterexample: the empty mapping is not passed through unchanged:
Python `or` on line 114 treats the empty dict as falsy and replaces it
with the default `{inputs: 512, targets: 512}`. -/
theorem C2_counterexample :
    (init extW "/tmp/model" none none none none "2x2" 8 (.int 16) (.map [])
        .omitted "bitransformer" "rules" true none none 5000 none none none
        none 100 none).1.sequence_length
      = [("inputs", 512), ("targets", 512)] ∧
    ¬ (init extW "/tmp/model" none none none none "2x2" 8 (.int 16) (.map [])
        .omitted "bitransformer" "rules" true none none 5000 none none none
        none 100 none).1.sequence_length = [] := by
  exact ⟨rfl, by decide⟩

/-- C2 (amended): every nonempty mapping passed as the `sequence_length`
constructor argument is stored exactly as given (the empty dict is
Python-falsy on line 114 and is replaced by the default). -/
theorem C2_seq_len_map (ext : Ext) (model_dir : String) (tpu : Option String)
    (tjn tz gp : Option String) (topo : String) (par : Int)
    (bs : BatchSizeArg) (sl : List (String × Int)) (voc : VocabArg)
    (mt layout : String) (as0 : Bool) (lrs : Option String)
    (kcm : Option Int) (scs : Int) (opt pf vf : Option String)
    (ens : Option Int) (ipl : Int) (ic : Option String) (h : sl ≠ []) :
    (init ext model_dir tpu tjn tz gp topo par bs (.map sl) voc mt layout
        as0 lrs kcm scs opt pf vf ens ipl ic).1.sequence_length = sl := by
  simp [init, seqLenOrDefault, expandSeqLen, h]

/-- C2 witness: the amended claim evaluated at a concrete two-key mapping. -/
theorem C2_seq_len_map_witness :
    [("inputs", (512 : Int)), ("targets", 128)] ≠ [] ∧
    (init extW "/tmp/model" none none none none "2x2" 8 (.int 16)
        (.map [("inputs", 512), ("targets", 128)]) .omitted "bitransformer"
        "rules" true none none 5000 none none none none 100
        none).1.sequence_length = [("inputs", 512), ("targets", 128)] :=
  ⟨by decide,
   C2_seq_len_map extW "/tmp/model" none none none none "2x2" 8 (.int 16)
     [("inputs", 512), ("targets", 128)] .omitted "bitransformer" "rules" true
     none none 5000 none none none none 100 none (by decide)⟩

/-- C3: for every inference routine `infer` (including any routine that
raises, i.e. returns `.error`), every prior gin state `g` and every
beam size and temperature, the gin decoding-parameter state after
`predict` returns equals `g`: the scoped configuration context restores
the previously bound parameters on every exit path. -/
theorem C3_predict_restores_gin
    (infer : InferArgs → GinDecode → Except String Unit) (m : Facade)
    (g : GinDecode) (cs : CheckpointSel) (input_file output_file : String)
    (beam : Int) (temp : Rat) :
    (predict infer m g cs input_file output_file beam temp).gin = g := by
  rfl

/-- C4: a plain-integer `batch_size` is stored exactly, and
`utils.compute_batch_size` is never invoked during construction. -/
theorem C4_batch_size_int (ext : Ext) (model_dir : String)
    (tpu : Option String) (tjn tz gp : Option String) (topo : String)
    (par : Int) (n : Int) (sl : SeqLenArg) (voc : VocabArg)
    (mt layout : String) (as0 : Bool) (lrs : Option String)
    (kcm : Option Int) (scs : Int) (opt pf vf : Option String)
    (ens : Option Int) (ipl : Int) (ic : Option String) :
    (init ext model_dir tpu tjn tz gp topo par (.int n) sl voc mt layout
        as0 lrs kcm scs opt pf vf ens ipl ic).1.batch_size = n ∧
    ExtCall.computeBatchSize ∉
      (init ext model_dir tpu tjn tz gp topo par (.int n) sl voc mt layout
        as0 lrs kcm scs opt pf vf ens ipl ic).2 := by
  refine ⟨rfl, ?_⟩
  cases voc <;> simp [init, resolveVocab, resolveBatch]

/-- C5: a `(method, value)` pair as `batch_size` resolves to the external
sizing function applied to the normalized sequence length, the mesh
shape derived from the topology and parallelism, the layout rules, and
that pair. -/
theorem C5_batch_size_pair (ext : Ext) (model_dir : String)
    (tpu : Option String) (tjn tz gp : Option String) (topo : String)
    (par : Int) (method : String) (value : Int) (sl : SeqLenArg)
    (voc : VocabArg) (mt layout : String) (as0 : Bool)
    (lrs : Option String) (kcm : Option Int) (scs : Int)
    (opt pf vf : Option String) (ens : Option Int) (ipl : Int)
    (ic : Option String) :
    (init ext model_dir tpu tjn tz gp topo par (.pair method value) sl voc
        mt layout as0 lrs kcm scs opt pf vf ens ipl ic).1.batch_size
      = ext.compute_batch_size (expandSeqLen (seqLenOrDefault sl))
          (ext.tpu_mesh_shape topo par) layout (method, value) := by
  rfl

/-- C6: when the `vocabulary` argument is omitted, the default
SentencePiece vocabulary is instantiated (it appears in the trace of
external invocations), and the estimator is built with that default
vocabulary's size as both the input and the output vocabulary size. -/
theorem C6_default_vocab (ext : Ext) (model_dir : String)
    (tpu : Option String) (tjn tz gp : Option String) (topo : String)
    (par : Int) (bs : BatchSizeArg) (sl : SeqLenArg) (mt layout : String)
    (as0 : Bool) (lrs : Option String) (kcm : Option Int) (scs : Int)
    (opt pf vf : Option String) (ens : Option Int) (ipl : Int)
    (ic : Option String) :
    (init ext model_dir tpu tjn tz gp topo par bs sl .omitted mt layout
        as0 lrs kcm scs opt pf vf ens ipl ic).1.estimator.input_vocab_size
      = ext.defaultVocab.vocab_size ∧
    (init ext model_dir tpu tjn tz gp topo par bs sl .omitted mt layout
        as0 lrs kcm scs opt pf vf ens ipl ic).1.estimator.output_vocab_size
      = ext.defaultVocab.vocab_size ∧
    ExtCall.sentencePieceVocabulary ∈
      (init ext model_dir tpu tjn tz gp topo par bs sl .omitted mt layout
        as0 lrs kcm scs opt pf vf ens ipl ic).2 := by
  refine ⟨rfl, rfl, ?_⟩
  simp [init, resolveVocab]

/-- C7: for every beam size at least 1 and every temperature — including
combinations that violate the documented caller contract — `predict`
performs no local validation: it binds exactly the given beam size and
temperature as the decoding parameters in effect during the delegated
call, and its result is exactly the external inference routine's result
on the delegated arguments (no locally raised error). -/
theorem C7_predict_no_local_validation
    (infer : InferArgs → GinDecode → Except String Unit) (m : Facade)
    (g : GinDecode) (cs : CheckpointSel) (input_file output_file : String)
    (beam : Int) (temp : Rat) (h : 1 ≤ beam) :
    (predict infer m g cs input_file output_file beam temp).delegatedGin
      = ⟨some beam, some temp⟩ ∧
    (predict infer m g cs input_file output_file beam temp).result
      = infer
          (predict infer m g cs input_file output_file beam temp).delegated
          (predict infer m g cs input_file output_file beam temp).delegatedGin :=
  ⟨rfl, rfl⟩

/-- C7 witness: evaluated at beam size 4 with temperature 1 (a
contract-violating combination) and an inference routine that accepts:
`predict` still delegates with exactly those values bound. -/
theorem C7_predict_no_local_validation_witness :
    (1 : Int) ≤ 4 ∧
    ((predict (fun _ _ => Except.ok ()) facadeW ⟨none, none⟩ .omitted
        "in.txt" "out" 4 1).delegatedGin = ⟨some 4, some 1⟩ ∧
     (predict (fun _ _ => Except.ok ()) facadeW ⟨none, none⟩ .omitted
        "in.txt" "out" 4 1).result
       = (fun (_ : InferArgs) (_ : GinDecode) => Except.ok ())
           (predict (fun _ _ => Except.ok ()) facadeW ⟨none, none⟩ .omitted
             "in.txt" "out" 4 1).delegated
           (predict (fun _ _ => Except.ok ()) facadeW ⟨none, none⟩ .omitted
             "in.txt" "out" 4 1).delegatedGin) :=
  ⟨by decide,
   C7_predict_no_local_validation (fun _ _ => Except.ok ()) facadeW
     ⟨none, none⟩ .omitted "in.txt" "out" 4 1 (by decide)⟩

/-- The construction-time invariants of C8, over a facade `m`: each verb
returns the facade unchanged (no field is mutated), each verb delegates
with the estimator and resolved batch size stored in `m` (the train and
eval delegations are expressed as the image of the dataset lookup, so
they hold on both the registered and the unregistered path), and no
verb's external-call trace contains a batch-size recomputation or an
estimator rebuild. -/
def constructionInvariant (registry : List String) (m : Facade)
    (name : String) (steps : Int) (cs : CheckpointSel) (sdir : Option String)
    (split : String) (infer : InferArgs → GinDecode → Except String Unit)
    (g : GinDecode) (cs2 : CheckpointSel) (input_file output_file : String)
    (beam : Int) (temp : Rat) : Prop :=
  (train registry m name steps).2 = m ∧
  (eval registry m name cs sdir split).2 = m ∧
  (predict infer m g cs2 input_file output_file beam temp).facade = m ∧
  (train registry m name steps).1.1
    = Except.map
        (fun d => ⟨m.estimator, m.vocabulary, m.sequence_length,
                   m.batch_size, d, steps, m.ensemble_inputs⟩)
        (mesh_train_dataset_fn registry name) ∧
  (eval registry m name cs sdir split).1.1
    = Except.map
        (fun d => ⟨m.estimator, m.vocabulary, m.sequence_length,
                   m.batch_size, split, m.model_dir, d, sdir, cs⟩)
        (mesh_eval_dataset_fn registry name) ∧
  (predict infer m g cs2 input_file output_file beam temp).delegated
    = ⟨m.estimator, m.vocabulary, m.sequence_length, m.batch_size,
       m.model_type, m.model_dir, cs2, input_file, output_file⟩ ∧
  ExtCall.computeBatchSize ∉ (train registry m name steps).1.2 ∧
  ExtCall.getEstimator ∉ (train registry m name steps).1.2 ∧
  ExtCall.computeBatchSize ∉ (eval registry m name cs sdir split).1.2 ∧
  ExtCall.getEstimator ∉ (eval registry m name cs sdir split).1.2 ∧
  ExtCall.computeBatchSize
    ∉ (predict infer m g cs2 input_file output_file beam temp).trace ∧
  ExtCall.getEstimator
    ∉ (predict infer m g cs2 input_file output_file beam temp).trace

/-- C8: for every facade constructed by `init`, the resolved batch size
and the estimator handle are fixed at construction: `train`, `eval` and
`predict` leave every stored field unchanged, delegate with the single
estimator and batch size stored at construction, and never invoke the
batch-size computation or the estimator builder again. -/
theorem C8_construction_fixed (ext : Ext) (model_dir : String)
    (tpu : Option String) (tjn tz gp : Option String) (topo : String)
    (par : Int) (bs : BatchSizeArg) (sl : SeqLenArg) (voc : VocabArg)
    (mt layout : String) (as0 : Bool) (lrs : Option String)
    (kcm : Option Int) (scs : Int) (opt pf vf : Option String)
    (ens : Option Int) (ipl : Int) (ic : Option String)
    (registry : List String) (m : Facade)
    (hm : m = (init ext model_dir tpu tjn tz gp topo par bs sl voc mt layout
        as0 lrs kcm scs opt pf vf ens ipl ic).1)
    (name : String) (steps : Int) (cs : CheckpointSel) (sdir : Option String)
    (split : String) (infer : InferArgs → GinDecode → Except String Unit)
    (g : GinDecode) (cs2 : CheckpointSel) (input_file output_file : String)
    (beam : Int) (temp : Rat) :
    constructionInvariant registry m name steps cs sdir split infer g cs2
      input_file output_file beam temp := by
  rcases hr : mesh_train_dataset_fn registry name with e | d <;>
    rcases he : mesh_eval_dataset_fn registry name with e2 | d2 <;>
      simp [constructionInvariant, train, eval, predict, hr, he, Except.map]

/-- C8 witness: the invariant evaluated on the concretely constructed
`facadeW` with concrete verb arguments. -/
theorem C8_construction_fixed_witness :
    facadeW = (init extW "/tmp/model" none none none none "2x2" 8 (.int 16)
        (.int 128) .omitted "bitransformer" "rules" true none none 5000 none
        none none none 100 none).1 ∧
    constructionInvariant ["wmt"] facadeW "wmt" 100 (.step 1000) none
      "validation" (fun _ _ => Except.ok ()) ⟨none, none⟩ .omitted "in.txt"
      "out" 1 0 :=
  ⟨rfl,
   C8_construction_fixed extW "/tmp/model" none none none none "2x2" 8
     (.int 16) (.int 128) .omitted "bitransformer" "rules" true none none
     5000 none none none none 100 none ["wmt"] facadeW rfl "wmt" 100
     (.step 1000) none "validation" (fun _ _ => Except.ok ()) ⟨none, none⟩
     .omitted "in.txt" "out" 1 0⟩

/-- C9: calling `train` with a name absent from the global registry
yields an error whose message contains the unregistered name, and no
delegated training effect — hence no dataset — is produced. -/
theorem C9_train_unregistered (registry : List String) (m : Facade)
    (name : String) (steps : Int) (h : name ∉ registry) :
    (∃ pre, (train registry m name steps).1.1 = Except.error (pre ++ name)) ∧
    ∀ eff : TrainEffect,
      (train registry m name steps).1.1 ≠ Except.ok eff := by
  have hd : mesh_train_dataset_fn registry name
      = Except.error ("No Task or Mixture found with name: " ++ name) := by
    simp [mesh_train_dataset_fn, h]
  exact ⟨⟨"No Task or Mixture found with name: ", by simp [train, hd]⟩,
         fun eff => by simp [train, hd]⟩

/-- C9 witness: `train("unregistered_name", 100)` against the empty
registry. -/
theorem C9_train_unregistered_witness :
    "unregistered_name" ∉ ([] : List String) ∧
    ((∃ pre, (train [] facadeW "unregistered_name" 100).1.1
        = Except.error (pre ++ "unregistered_name")) ∧
     ∀ eff : TrainEffect,
       (train [] facadeW "unregistered_name" 100).1.1 ≠ Except.ok eff) :=
  ⟨by decide,
   C9_train_unregistered [] facadeW "unregistered_name" 100 (by decide)⟩

/-- C10: a falsy `tpu` argument (`None` or the empty string) makes the
constructor pass the empty string to the TPU cluster resolver while the
`use_tpu` value forwarded to the estimator builder stays the original
argument unchanged; a truthy (nonempty) string is passed to both. -/
theorem C10_tpu_forwarding (ext : Ext) (model_dir : String)
    (tjn tz gp : Option String) (topo : String) (par : Int)
    (bs : BatchSizeArg) (sl : SeqLenArg) (voc : VocabArg)
    (mt layout : String) (as0 : Bool) (lrs : Option String)
    (kcm : Option Int) (scs : Int) (opt pf vf : Option String)
    (ens : Option Int) (ipl : Int) (ic : Option String) (s : String)
    (h : s ≠ "") :
    ((init ext model_dir none tjn tz gp topo par bs sl voc mt layout as0
        lrs kcm scs opt pf vf ens ipl ic).1.estimator.cluster.tpu = "" ∧
     (init ext model_dir none tjn tz gp topo par bs sl voc mt layout as0
        lrs kcm scs opt pf vf ens ipl ic).1.estimator.use_tpu = none) ∧
    ((init ext model_dir (some "") tjn tz gp topo par bs sl voc mt layout
        as0 lrs kcm scs opt pf vf ens ipl ic).1.estimator.cluster.tpu = "" ∧
     (init ext model_dir (some "") tjn tz gp topo par bs sl voc mt layout
        as0 lrs kcm scs opt pf vf ens ipl ic).1.estimator.use_tpu
       = some "") ∧
    ((init ext model_dir (some s) tjn tz gp topo par bs sl voc mt layout
        as0 lrs kcm scs opt pf vf ens ipl ic).1.estimator.cluster.tpu = s ∧
     (init ext model_dir (some s) tjn tz gp topo par bs sl voc mt layout
        as0 lrs kcm scs opt pf vf ens ipl ic).1.estimator.use_tpu
       = some s) := by
  refine ⟨⟨rfl, rfl⟩, ⟨?_, rfl⟩, ⟨?_, rfl⟩⟩
  · simp [init, tpuTruthy]
  · simp [init, tpuTruthy, h]

/-- C10 witness: evaluated at the truthy address "10.0.0.1" (the two
falsy cases are closed already in the theorem's first two conjuncts). -/
theorem C10_tpu_forwarding_witness :
    "10.0.0.1" ≠ "" ∧
    (((init extW "/tmp/model" none none none none "2x2" 8 (.int 16)
        (.int 128) .omitted "bitransformer" "rules" true none none 5000 none
        none none none 100 none).1.estimator.cluster.tpu = "" ∧
      (init extW "/tmp/model" none none none none "2x2" 8 (.int 16)
        (.int 128) .omitted "bitransformer" "rules" true none none 5000 none
        none none none 100 none).1.estimator.use_tpu = none) ∧
     ((init extW "/tmp/model" (some "") none none none "2x2" 8 (.int 16)
        (.int 128) .omitted "bitransformer" "rules" true none none 5000 none
        none none none 100 none).1.estimator.cluster.tpu = "" ∧
      (init extW "/tmp/model" (some "") none none none "2x2" 8 (.int 16)
        (.int 128) .omitted "bitransformer" "rules" true none none 5000 none
        none none none 100 none).1.estimator.use_tpu = some "") ∧
     ((init extW "/tmp/model" (some "10.0.0.1") none none none "2x2" 8
        (.int 16) (.int 128) .omitted "bitransformer" "rules" true none none
        5000 none none none none 100 none).1.estimator.cluster.tpu
        = "10.0.0.1" ∧
      (init extW "/tmp/model" (some "10.0.0.1") none none none "2x2" 8
        (.int 16) (.int 128) .omitted "bitransformer" "rules" true none none
        5000 none none none none 100 none).1.estimator.use_tpu
        = some "10.0.0.1")) :=
  ⟨by decide,
   C10_tpu_forwarding extW "/tmp/model" none none none "2x2" 8 (.int 16)
     (.int 128) .omitted "bitransformer" "rules" true none none 5000 none
     none none none 100 none "10.0.0.1" (by decide)⟩

end MtfModel
